import Mathlib

/-!
Shallow embedding of the mbutiles repository (src/src/mbtiles.rs) for checking
its natural-language specification.

Modelling conventions, stated once here:

* Machine integers: the source uses `u32` tile coordinates and `i64` SQLite
  parameters.  All values exercised by the claims fit well below `2^31`, so
  coordinates are modelled as `Nat`; the `u32` parsing functions enforce the
  `2^32` bound exactly as `u32::from_str_radix` does.  `flip_y` is modelled
  with truncated `Nat` subtraction; the Rust `u32` subtraction would panic
  (debug) or wrap (release) on underflow, a corner no claim instance reaches
  except ones that panic later anyway (noted at the use site).
* External crates (`rusqlite`, `walkdir`, `flate2`, `regex`,
  `rustc_serialize`) are collaborators, not repository code; they are modelled
  by their documented behaviour: SQLite tables as append-only lists with the
  two unique indexes of the schema, the directory walker as iteration over a
  finite list of (path, content) files, zlib as a bijective byte codec
  (modelled as the identity on the serialized text, since the stored payload
  is only ever observed through decompress-after-compress), the JSONP regex
  by its leftmost-match semantics on the inputs of interest, and
  `rustc_serialize::json::Json` as the inductive type below with `BTreeMap`
  objects (sorted association lists, later inserts replacing earlier ones).
* The JSON number model covers integer numerals only (the claims use only
  integers); floating-point literals are out of scope.
* File contents are modelled as `String`; tile payloads are opaque byte
  sequences observed only through equality, for which `String` is faithful.
-/

namespace Mbutiles

/-- Left and right curly-brace characters, named once. -/
def lbraceC : Char := Char.ofNat 123

def rbraceC : Char := Char.ofNat 125

def lbraceS : String := String.singleton lbraceC

def rbraceS : String := String.singleton rbraceC

/-- `u32` decimal and hexadecimal rendering helpers. -/
def intRepr : Int → String
  | Int.ofNat m => Nat.repr m
  | Int.negSucc m => "-" ++ Nat.repr (m + 1)

mutual

/-- Model of `rustc_serialize::json::Json` (integer numerals only; objects are
`BTreeMap`s, represented as key-sorted association lists). -/
inductive Json where
  | null : Json
  | boolean : Bool → Json
  | num : Int → Json
  | str : String → Json
  | arr : JsonList → Json
  | obj : JsonMembers → Json

inductive JsonList where
  | nil : JsonList
  | cons : Json → JsonList → JsonList

inductive JsonMembers where
  | nil : JsonMembers
  | cons : String → Json → JsonMembers → JsonMembers

end

/-- Byte-wise (codepoint-wise) strict order on strings, the `BTreeMap` key
order for ASCII keys. -/
def charListLt : List Char → List Char → Bool
  | [], [] => false
  | [], _ :: _ => true
  | _ :: _, [] => false
  | a :: as, b :: bs =>
    if a.toNat < b.toNat then true
    else if a.toNat = b.toNat then charListLt as bs
    else false

def strLt (a b : String) : Bool := charListLt a.data b.data

/-- `BTreeMap::insert`: keeps keys sorted, replaces an existing binding. -/
def JsonMembers.insertSorted : JsonMembers → String → Json → JsonMembers
  | .nil, k, v => .cons k v .nil
  | .cons k' v' tl, k, v =>
    if strLt k k' then .cons k v (.cons k' v' tl)
    else if k = k' then .cons k v tl
    else .cons k' v' (JsonMembers.insertSorted tl k v)

/-- `BTreeMap::get`. -/
def JsonMembers.lookup : JsonMembers → String → Option Json
  | .nil, _ => none
  | .cons k' v' tl, k => if k = k' then some v' else JsonMembers.lookup tl k

/-- `BTreeMap::remove`: the removed value (if any) and the remaining map. -/
def JsonMembers.removeKey : JsonMembers → String → Option Json × JsonMembers
  | .nil, _ => (none, .nil)
  | .cons k' v' tl, k =>
    if k = k' then (some v', tl)
    else
      let r := JsonMembers.removeKey tl k
      (r.1, .cons k' v' r.2)

def hexDigitChar (n : Nat) : Char :=
  if n < 10 then Char.ofNat (48 + n) else Char.ofNat (87 + n)

def hex4 (n : Nat) : String :=
  String.mk [hexDigitChar (n / 4096 % 16), hexDigitChar (n / 256 % 16),
             hexDigitChar (n / 16 % 16), hexDigitChar (n % 16)]

/-- JSON string escaping as `rustc_serialize` performs it. -/
def escapeChar (c : Char) : String :=
  if c = '\"' then "\\\""
  else if c = '\\' then "\\\\"
  else if c = '\n' then "\\n"
  else if c = '\r' then "\\r"
  else if c = '\t' then "\\t"
  else if c.toNat = 8 then "\\b"
  else if c.toNat = 12 then "\\f"
  else if c.toNat < 32 then "\\u" ++ hex4 c.toNat
  else String.singleton c

def escapeList : List Char → String
  | [] => ""
  | c :: cs => escapeChar c ++ escapeList cs

def encodeString (s : String) : String := "\"" ++ escapeList s.data ++ "\""

mutual

/-- Compact JSON serialization: `json::encode` and `Json::to_string` of
`rustc_serialize` (both emit the same compact text). -/
def Json.encode : Json → String
  | .null => "null"
  | .boolean true => "true"
  | .boolean false => "false"
  | .num n => intRepr n
  | .str s => encodeString s
  | .arr xs => "[" ++ JsonList.encodeElems xs ++ "]"
  | .obj ms => lbraceS ++ JsonMembers.encodeElems ms ++ rbraceS

def JsonList.encodeElems : JsonList → String
  | .nil => ""
  | .cons x .nil => Json.encode x
  | .cons x (.cons y tl) => Json.encode x ++ "," ++ JsonList.encodeElems (.cons y tl)

def JsonMembers.encodeElems : JsonMembers → String
  | .nil => ""
  | .cons k v .nil => encodeString k ++ ":" ++ Json.encode v
  | .cons k v (.cons k2 v2 tl) =>
    encodeString k ++ ":" ++ Json.encode v ++ "," ++ JsonMembers.encodeElems (.cons k2 v2 tl)

end

def skipWs : List Char → List Char
  | [] => []
  | c :: cs => if c = ' ' ∨ c = '\t' ∨ c = '\n' ∨ c = '\r' then skipWs cs else c :: cs

def hexVal (c : Char) : Option Nat :=
  if '0' ≤ c ∧ c ≤ '9' then some (c.toNat - 48)
  else if 'a' ≤ c ∧ c ≤ 'f' then some (c.toNat - 87)
  else if 'A' ≤ c ∧ c ≤ 'F' then some (c.toNat - 55)
  else none

def parseStringBody : List Char → List Char → Option (String × List Char)
  | [], _ => none
  | c :: cs, acc =>
    if c = '\"' then some (String.mk acc.reverse, cs)
    else if c = '\\' then
      match cs with
      | [] => none
      | e :: cs' =>
        if e = '\"' then parseStringBody cs' ('\"' :: acc)
        else if e = '\\' then parseStringBody cs' ('\\' :: acc)
        else if e = '/' then parseStringBody cs' ('/' :: acc)
        else if e = 'n' then parseStringBody cs' ('\n' :: acc)
        else if e = 't' then parseStringBody cs' ('\t' :: acc)
        else if e = 'r' then parseStringBody cs' ('\r' :: acc)
        else if e = 'b' then parseStringBody cs' (Char.ofNat 8 :: acc)
        else if e = 'f' then parseStringBody cs' (Char.ofNat 12 :: acc)
        else if e = 'u' then
          match cs' with
          | h1 :: h2 :: h3 :: h4 :: cs'' =>
            match hexVal h1, hexVal h2, hexVal h3, hexVal h4 with
            | some a, some b, some c2, some d2 =>
              parseStringBody cs'' (Char.ofNat (((a * 16 + b) * 16 + c2) * 16 + d2) :: acc)
            | _, _, _, _ => none
          | _ => none
        else none
    else if c.toNat < 32 then none
    else parseStringBody cs (c :: acc)

def parseDigitsGo : List Char → Nat → Nat × List Char
  | [], acc => (acc, [])
  | c :: cs, acc =>
    if c.isDigit then parseDigitsGo cs (acc * 10 + (c.toNat - 48)) else (acc, c :: cs)

/-- Integer numerals; a fraction or exponent marker is out of the model's
scope and rejected (no claim input uses floating point). -/
def parseNum (cs : List Char) : Option (Json × List Char) :=
  match cs with
  | [] => none
  | '-' :: rest =>
    match rest with
    | [] => none
    | c :: _ =>
      if c.isDigit then
        let r := parseDigitsGo rest 0
        match r.2 with
        | [] => some (.num (-(r.1 : Int)), [])
        | d :: _ =>
          if d = '.' ∨ d = 'e' ∨ d = 'E' then none else some (.num (-(r.1 : Int)), r.2)
      else none
  | c :: _ =>
    if c.isDigit then
      let r := parseDigitsGo cs 0
      match r.2 with
      | [] => some (.num (r.1 : Int), [])
      | d :: _ =>
        if d = '.' ∨ d = 'e' ∨ d = 'E' then none else some (.num (r.1 : Int), r.2)
    else none

mutual

/-- Fuel-driven recursive-descent JSON value parser (the fuel is an upper
bound on recursion steps; `Json.from_str` supplies enough for any input). -/
def parseVal : Nat → List Char → Option (Json × List Char)
  | 0, _ => none
  | fuel + 1, cs =>
    match skipWs cs with
    | 'n' :: 'u' :: 'l' :: 'l' :: rest => some (.null, rest)
    | 't' :: 'r' :: 'u' :: 'e' :: rest => some (.boolean true, rest)
    | 'f' :: 'a' :: 'l' :: 's' :: 'e' :: rest => some (.boolean false, rest)
    | '\"' :: rest =>
      match parseStringBody rest [] with
      | some (s, rest') => some (.str s, rest')
      | none => none
    | '[' :: rest =>
      (match skipWs rest with
       | ']' :: rest' => some (.arr .nil, rest')
       | cs' => parseElems fuel cs')
    | c :: rest =>
      if c = lbraceC then
        match skipWs rest with
        | [] => none
        | d :: rest' =>
          if d = rbraceC then some (.obj .nil, rest')
          else parseMembers fuel (d :: rest') .nil
      else if c = '-' ∨ c.isDigit then parseNum (c :: rest)
      else none
    | [] => none

def parseElems : Nat → List Char → Option (Json × List Char)
  | 0, _ => none
  | fuel + 1, cs =>
    match parseVal fuel cs with
    | none => none
    | some (v, rest) =>
      match skipWs rest with
      | ',' :: rest' =>
        (match parseElems fuel rest' with
         | some (.arr tl, rest'') => some (.arr (.cons v tl), rest'')
         | _ => none)
      | ']' :: rest' => some (.arr (.cons v .nil), rest')
      | _ => none

def parseMembers : Nat → List Char → JsonMembers → Option (Json × List Char)
  | 0, _, _ => none
  | fuel + 1, cs, acc =>
    match skipWs cs with
    | '\"' :: rest =>
      (match parseStringBody rest [] with
       | none => none
       | some (k, rest') =>
         match skipWs rest' with
         | ':' :: rest'' =>
           (match parseVal fuel rest'' with
            | none => none
            | some (v, rest3) =>
              let acc' := acc.insertSorted k v
              match skipWs rest3 with
              | [] => none
              | ',' :: rest4 => parseMembers fuel rest4 acc'
              | d :: rest4 => if d = rbraceC then some (.obj acc', rest4) else none)
         | _ => none)
    | _ => none

end

/-- `Json::from_str`: parse a complete JSON document (the whole input must be
consumed, up to trailing whitespace); `none` models a `ParserError`. -/
def Json.from_str (s : String) : Option Json :=
  match parseVal (10 * (s.length + 1)) s.data with
  | some (j, rest) => if (skipWs rest).isEmpty then some j else none
  | none => none

/-- `Scheme` (mbtiles.rs line 25). -/
inductive Scheme where
  | xyz | tms | wms | ags
deriving DecidableEq, Repr

/-- `ImageFormat` (mbtiles.rs line 45). -/
inductive ImageFormat where
  | png | jpg | webp | pbf
deriving DecidableEq, Repr

/-- `get_extension` (mbtiles.rs line 99). -/
def get_extension : ImageFormat → String
  | .jpg => "jpg"
  | .pbf => "pbf"
  | .png => "png"
  | .webp => "webp"

/-- `flip_y` (mbtiles.rs line 156): `2u32.pow(zoom) - 1 - y`.  `Nat`
subtraction truncates where the `u32` subtraction would underflow (panic in
debug, wrap in release); no claim instance reaches that corner except ones
whose overall outcome is a panic regardless. -/
def flip_y (zoom y : Nat) : Nat := 2 ^ zoom - 1 - y

/-- Model of the error kinds of `InnerError` (mbtile_error.rs) that the
embedded code paths can produce. -/
inductive InnerError where
  | noErr | ioErr | sqliteErr | parseIntErr | parserErr
deriving DecidableEq, Repr

/-- `MBTileError`: an optional context message plus the underlying cause. -/
structure MBTileError where
  message : Option String
  inner : InnerError
deriving DecidableEq, Repr

/-- Result of running a piece of the pipeline: `Ok`, `Err`, or a Rust panic
(process abort, not catchable by the per-entry error handling). -/
inductive RResult (α : Type) where
  | ok : α → RResult α
  | err : MBTileError → RResult α
  | panicked : RResult α
deriving DecidableEq, Repr

def RResult.bind {α β : Type} : RResult α → (α → RResult β) → RResult β
  | .ok a, f => f a
  | .err e, _ => .err e
  | .panicked, _ => .panicked

def RResult.getOk {α : Type} : RResult α → α → α
  | .ok a, _ => a
  | _, d => d

/-- One row of the `tiles` table. -/
structure TileRow where
  z : Nat
  c : Nat
  r : Nat
  data : String
deriving DecidableEq, Repr

/-- One row of the `grids` table; `payload` is the zlib-compressed filtered
grid JSON, modelled through the bijective codec as the serialized text. -/
structure GridRow where
  z : Nat
  c : Nat
  r : Nat
  payload : String
deriving DecidableEq, Repr

/-- One row of the `grid_data` table. -/
structure GridDataRow where
  z : Nat
  c : Nat
  r : Nat
  key_name : String
  key_json : String
deriving DecidableEq, Repr

/-- The MBTiles container: the four tables created by `mbtiles_setup`
(mbtiles.rs line 73), rows kept in insertion order.  `PRAGMA`s, `ANALYZE` and
`VACUUM` do not change table contents and are not modelled. -/
structure Container where
  tiles : List TileRow := []
  metadata : List (String × String) := []
  grids : List GridRow := []
  grid_data : List GridDataRow := []
deriving DecidableEq, Repr

def Container.empty : Container := {}

/-- An on-disk directory tree: files only, each a component path (relative to
the tree root) with its content. -/
abbrev Dir := List (List String × String)

def dirRead (d : Dir) (p : List String) : Option String :=
  (d.find? (fun f => f.1 == p)).map (fun f => f.2)

/-- `File::create` + `write_all`: truncates an existing file at the path. -/
def dirWrite (d : Dir) (p : List String) (s : String) : Dir :=
  (d.filter (fun f => !(f.1 == p))) ++ [(p, s)]

/-- The input filesystem seen by `import`. -/
structure FS where
  files : List (List String × String)
deriving DecidableEq, Repr

def FS.read (fs : FS) (p : List String) : Option String := dirRead fs.files p

def FS.isFile (fs : FS) (p : List String) : Bool := (fs.read p).isSome

def FS.isDir (fs : FS) (p : List String) : Bool :=
  fs.files.any (fun f => p.isPrefixOf f.1 && !(p == f.1))

/-- `str::split('.')` specialised to the dot used on filenames. -/
def splitDotGo : List Char → List Char → List (List Char)
  | [], acc => [acc.reverse]
  | c :: cs, acc =>
    if c = '.' then acc.reverse :: splitDotGo cs [] else splitDotGo cs (c :: acc)

def splitDot (s : String) : List String := (splitDotGo s.data []).map String.mk

/-- `String::replace(pat, "")` for a single-character pattern. -/
def removeChar (c : Char) (s : String) : String := String.mk (s.data.filter (fun d => d ≠ c))

def startsWithDot (s : String) : Bool :=
  match s.data with
  | c :: _ => c = '.'
  | [] => false

def digitVal (radix : Nat) (c : Char) : Option Nat :=
  let d :=
    if '0' ≤ c ∧ c ≤ '9' then some (c.toNat - 48)
    else if 'a' ≤ c ∧ c ≤ 'z' then some (c.toNat - 87)
    else if 'A' ≤ c ∧ c ≤ 'Z' then some (c.toNat - 55)
    else none
  match d with
  | some v => if v < radix then some v else none
  | none => none

def parse_u32_go (radix : Nat) : List Char → Nat → Option Nat
  | [], acc => some acc
  | c :: cs, acc =>
    match digitVal radix c with
    | some v =>
      let acc' := acc * radix + v
      if acc' < 4294967296 then parse_u32_go radix cs acc' else none
    | none => none

/-- `u32::from_str_radix`: optional leading `+`, at least one digit, per-step
overflow check against `2^32`. -/
def parse_u32 (radix : Nat) (s : String) : Option Nat :=
  let cs := match s.data with
    | '+' :: rest => rest
    | cs => cs
  match cs with
  | [] => none
  | _ => parse_u32_go radix cs 0

/-- Character class of the JSONP-unwrapping regex in `insert_grid_json`
(mbtiles.rs line 284): word characters, whitespace, the equals sign, and the
range from plus (43) to slash (47).  (ASCII view; the claims' inputs are
ASCII.) -/
def isClassChar (c : Char) : Bool :=
  c.isAlphanum || c == '_' || c == ' ' || c == '\t' || c == '\n' || c == '\r' ||
    c.toNat == 11 || c.toNat == 12 || c == '=' || (43 ≤ c.toNat && c.toNat ≤ 47)

def classRun : List Char → Nat
  | [] => 0
  | c :: cs => if isClassChar c then classRun cs + 1 else 0

def lastBraceParenGo : List Char → Nat → Option Nat → Option Nat
  | [], _, best => best
  | [_], _, best => best
  | a :: b :: rest, i, best =>
    lastBraceParenGo (b :: rest) (i + 1) (if a = rbraceC ∧ b = ')' then some i else best)

/-- Index of the last closing brace that is immediately followed by a closing
parenthesis (the greedy end of the regex's capture group). -/
def lastBraceParen (cs : List Char) : Option Nat := lastBraceParenGo cs 0 none

/-- One attempt of the JSONP regex at the head of `cs`: a nonempty run of
class characters (the class excludes the opening parenthesis, so the plus
quantifier cannot backtrack), then an opening parenthesis, then the greedy
brace-delimited capture group ending at the last brace-parenthesis pair,
optionally followed by a semicolon. -/
def tryMatchAt (cs : List Char) : Option (List Char) :=
  let r := classRun cs
  if r = 0 then none
  else
    match cs.drop r with
    | '(' :: rest =>
      (match rest with
       | c :: _ =>
         if c = lbraceC then
           match lastBraceParen rest with
           | some j => some (rest.take (j + 1))
           | none => none
         else none
       | [] => none)
    | _ => none

/-- `Regex::captures`: leftmost match, returning capture group 1. -/
def searchMatch : List Char → Option (List Char)
  | [] => none
  | c :: tl =>
    match tryMatchAt (c :: tl) with
    | some cap => some cap
    | none => searchMatch tl

/-- `insert_image_sqlite` (mbtiles.rs line 337); the file content has already
been read by the caller's filesystem model.  The unique index
`tile_index (zoom_level, tile_column, tile_row)` makes a duplicate insert a
caught SQLite error. -/
def insert_image_sqlite (content : String) (zoom col row : Nat) (conn : Container) :
    RResult Container :=
  if conn.tiles.any (fun t => t.z == zoom && t.c == col && t.r == row) then
    .err ⟨some "Can't insert tile", .sqliteErr⟩
  else .ok { conn with tiles := conn.tiles ++ [⟨zoom, col, row, content⟩] }

/-- The per-key loop of `insert_grid_json` (mbtiles.rs lines 307-333):
non-string entries are dropped by `filter_map`, empty strings are filtered
out, a missing `data` field or non-object `data` is printed and skipped, and
a key absent from a present `data` object hits the panicking `BTreeMap`
index `data_obj[key]`. -/
def insertGridKeys (zoom col row : Nat) (data_opt : Option Json) :
    JsonList → Container → RResult Container
  | .nil, conn => .ok conn
  | .cons k tl, conn =>
    match k with
    | .str s =>
      if s = "" then insertGridKeys zoom col row data_opt tl conn
      else
        match data_opt with
        | some (.obj dataObj) =>
          (match dataObj.lookup s with
           | some v =>
             insertGridKeys zoom col row data_opt tl
               { conn with grid_data := conn.grid_data ++ [⟨zoom, col, row, s, Json.encode v⟩] }
           | none => .panicked)
        | some _ => insertGridKeys zoom col row data_opt tl conn
        | none => insertGridKeys zoom col row data_opt tl conn
    | _ => insertGridKeys zoom col row data_opt tl conn

/-- `insert_grid_json` (mbtiles.rs line 274): JSONP unwrap, parse, split off
`data`, store the re-serialized remainder (zlib modelled as identity) as a
`grids` row, then walk the `keys` array. -/
def insert_grid_json (content : String) (zoom col row : Nat) (conn : Container) :
    RResult Container :=
  let grid_content := match searchMatch content.data with
    | some cap => String.mk cap
    | none => content
  match Json.from_str grid_content with
  | none => .err ⟨none, .parserErr⟩
  | some utfgrid =>
    match utfgrid with
    | .obj ms =>
      let dr := ms.removeKey "data"
      let filtered := Json.encode (.obj dr.2)
      let conn1 := { conn with grids := conn.grids ++ [⟨zoom, col, row, filtered⟩] }
      (match dr.2.lookup "keys" with
       | some (.arr keys) => insertGridKeys zoom col row dr.1 keys conn1
       | _ => .ok conn1)
    | _ => .err ⟨some "grid json not an object", .noErr⟩

/-- `parse_zoom_dir` (mbtiles.rs line 212): for `Ags`, strip `L` (a missing
`L` only warns) and parse decimal; otherwise parse decimal. -/
def parse_zoom_dir (s : String) (flag_scheme : Scheme) : RResult Nat :=
  let zs := match flag_scheme with
    | .ags => removeChar 'L' s
    | _ => s
  match parse_u32 10 zs with
  | some n => .ok n
  | none => .err ⟨some "Can't parse component in integer format", .parseIntErr⟩

/-- `parse_image_dir` (mbtiles.rs line 224): for `Ags`, strip `R` and parse
hexadecimal; otherwise parse decimal. -/
def parse_image_dir (s : String) (flag_scheme : Scheme) : RResult Nat :=
  let p := match flag_scheme with
    | .ags => (16, removeChar 'R' s)
    | _ => (10, s)
  match parse_u32 p.1 p.2 with
  | some n => .ok n
  | none => .err ⟨some "Can't parse component in integer format", .parseIntErr⟩

/-- `parse_filename_and_insert` (mbtiles.rs line 235).  The final `else`
branch formats `parts[1]` into its error message; when the split produced a
single part that index is out of bounds and the thread panics. -/
def parse_filename_and_insert (filename : String) (flag_scheme : Scheme)
    (image_format : ImageFormat) (zoom image_dir : Nat) (content : String)
    (conn : Container) : RResult Container :=
  let parts := splitDot filename
  let p := match flag_scheme with
    | .ags => (16, removeChar 'C' (parts.headD ""))
    | _ => (10, parts.headD "")
  match parse_u32 p.1 p.2 with
  | none => .err ⟨some "Can't parse component in integer format", .parseIntErr⟩
  | some image_filename =>
    let cr := match flag_scheme with
      | .ags => (image_filename, flip_y zoom image_dir)
      | .xyz => (image_dir, flip_y zoom image_filename)
      | _ => (image_dir, image_filename)
    let filtered_extension := get_extension image_format
    if parts.length = 2 ∧ parts.getD 1 "" = filtered_extension then
      insert_image_sqlite content zoom cr.1 cr.2 conn
    else if parts.length = 3 ∧ parts.getD 1 "" = "grid" ∧ parts.getD 2 "" = "json" then
      insert_grid_json content zoom cr.1 cr.2 conn
    else
      match parts.get? 1 with
      | some p1 =>
        .err ⟨some ("The filtered extention " ++ filtered_extension ++
          " is different than the path's extention " ++ p1), .noErr⟩
      | none => .panicked

/-- The body of `insert_metadata`'s loop over the parsed object (mbtiles.rs
lines 123-128): any non-string value aborts the import; the unique index on
`metadata.name` cannot fire because object keys are unique. -/
def insertMetaRows : JsonMembers → Container → RResult Container
  | .nil, conn => .ok conn
  | .cons k v tl, conn =>
    match v with
    | .str s => insertMetaRows tl { conn with metadata := conn.metadata ++ [(k, s)] }
    | _ => .err ⟨some "metadata object has a non string value", .noErr⟩

/-- `insert_metadata` (mbtiles.rs line 108).  The import root is the empty
relative path.  The early `Ok` return fires only when the input path itself
is a file; otherwise `metadata.json` is opened unconditionally and an absent
file is an IO error. -/
def insert_metadata (fs : FS) (conn : Container) : RResult Container :=
  if fs.isFile [] then .ok conn
  else
    match fs.read ["metadata.json"] with
    | none => .err ⟨some "Can't open metadata.json", .ioErr⟩
    | some buffer =>
      match Json.from_str buffer with
      | none => .err ⟨none, .parserErr⟩
      | some data =>
        match data with
        | .obj ms => insertMetaRows ms conn
        | _ => .ok conn

/-- One directory entry of the walk (mbtiles.rs lines 172-198): the walker
yields visible entries up to depth 3; only files whose relative path has
exactly 3 components are parsed, and a parse/insert `Err` is logged and
skipped (`unwrap_or_else`) while a panic aborts the process. -/
def walkEntry (flag_scheme : Scheme) (flag_image_format : ImageFormat)
    (p : List String) (content : String) (conn : Container) : RResult Container :=
  if p.length ≤ 3 && p.all (fun s => !(startsWithDot s)) then
    if p.length = 3 then
      match (parse_zoom_dir (p.getD 0 "") flag_scheme).bind (fun zoom =>
              (parse_image_dir (p.getD 1 "") flag_scheme).bind (fun image_dir =>
                parse_filename_and_insert (p.getD 2 "") flag_scheme flag_image_format
                  zoom image_dir content conn)) with
      | .ok conn' => .ok conn'
      | .err _ => .ok conn
      | .panicked => .panicked
    else .ok conn
  else .ok conn

def walkGo (flag_scheme : Scheme) (flag_image_format : ImageFormat) :
    List (List String × String) → Container → RResult Container
  | [], conn => .ok conn
  | (p, content) :: rest, conn =>
    match walkEntry flag_scheme flag_image_format p content conn with
    | .ok conn' => walkGo flag_scheme flag_image_format rest conn'
    | .err e => .err e
    | .panicked => .panicked

/-- `walk_dir_image` (mbtiles.rs line 160), over the finite file list of the
input tree. -/
def walk_dir_image (fs : FS) (flag_scheme : Scheme) (flag_image_format : ImageFormat)
    (conn : Container) : RResult Container :=
  walkGo flag_scheme flag_image_format fs.files conn

/-- `import` (mbtiles.rs line 134), named `runImport` because `import` is a
reserved word.  The output container file is assumed fresh, so
`mbtiles_setup` yields the empty container; connection tuning and the final
`ANALYZE`/`VACUUM` do not change table contents. -/
def runImport (fs : FS) (flag_scheme : Scheme) (flag_image_format : ImageFormat) :
    RResult Container :=
  if !(fs.isDir []) then .err ⟨some "Can only import from a directory", .noErr⟩
  else (insert_metadata fs Container.empty).bind (fun conn =>
    walk_dir_image fs flag_scheme flag_image_format conn)

/-- Zero-padding to a minimum width, Rust's `{:0N}` format. -/
def pad (w n : Nat) : String :=
  let s := Nat.repr n
  if s.length < w then String.mk (List.replicate (w - s.length) '0') ++ s else s

/-- The path built by `export_tile` (mbtiles.rs lines 423-448): directory
components plus filename.  `Xyz` flips the row for the path; `Wms` fans out
zero-padded; `Tms` and `Ags` fall through to the default decimal layout.
(The Wms arithmetic is on `i32` casts in the source; all claim instances are
below `2^31`, where it coincides with `Nat` arithmetic.) -/
def export_tile_path (flag_scheme : Scheme) (flag_image_format : ImageFormat)
    (z x y : Nat) : List String :=
  let ext := get_extension flag_image_format
  match flag_scheme with
  | .xyz => [Nat.repr z, Nat.repr x, Nat.repr (flip_y z y) ++ "." ++ ext]
  | .wms =>
    [pad 2 z, pad 2 z, pad 3 (x / 1000000), pad 3 (x / 1000 % 1000), pad 2 (x % 1000),
     pad 2 (y / 1000000), pad 2 (y / 1000 % 1000), pad 3 (y % 1000) ++ "." ++ ext]
  | _ => [Nat.repr z, Nat.repr x, Nat.repr y ++ "." ++ ext]

/-- `export_metadata` (mbtiles.rs line 355): collect the rows into a
`BTreeMap`, serialize as one JSON object. -/
def export_metadata_str (conn : Container) : String :=
  Json.encode (.obj (conn.metadata.foldl
    (fun acc kv => acc.insertSorted kv.1 (.str kv.2)) .nil))

/-- The callback wrapping of `export_grid` (mbtiles.rs lines 518-521): the
source matches the callback string against the literals `""`, `"false"`,
`"null"`, and otherwise formats `callback(json);`. -/
def dump_grid (flag_grid_callback grid_json : String) : String :=
  if flag_grid_callback = "" ∨ flag_grid_callback = "false" ∨ flag_grid_callback = "null" then
    grid_json
  else flag_grid_callback ++ "(" ++ grid_json ++ ");"

/-- The `grid_data` query and `BTreeMap` collect of `export_grid` (mbtiles.rs
lines 490-507): parse each stored `key_json`, a malformed one is a hard
error. -/
def buildGridData : List GridDataRow → JsonMembers → RResult JsonMembers
  | [], acc => .ok acc
  | r :: rest, acc =>
    match Json.from_str r.key_json with
    | none => .err ⟨some ("Can't parse json: " ++ r.key_json), .parserErr⟩
    | some v => buildGridData rest (acc.insertSorted r.key_name v)

/-- One iteration of `export_grid`'s row loop (mbtiles.rs lines 471-522).
Note: the row variable `y` is flipped for the `Xyz` path *and then reused* in
the `grid_data` query, so the query runs against the flipped row. -/
def export_grid_row (conn : Container) (flag_scheme : Scheme)
    (flag_grid_callback : String) (g : GridRow) (d : Dir) : RResult Dir :=
  let y := match flag_scheme with
    | .xyz => flip_y g.z g.r
    | _ => g.r
  match Json.from_str g.payload with
  | none => .err ⟨some ("Grid json: " ++ g.payload), .parserErr⟩
  | some grid_json =>
    let rows := conn.grid_data.filter (fun r => r.z == g.z && r.c == g.c && r.r == y)
    (buildGridData rows .nil).bind (fun dataMap =>
      match grid_json with
      | .obj ms =>
        let ms' := ms.insertSorted "data" (.obj dataMap)
        let out := dump_grid flag_grid_callback (Json.encode (.obj ms'))
        .ok (dirWrite d [Nat.repr g.z, Nat.repr g.c, Nat.repr y ++ ".grid.json"] out)
      | _ => .err ⟨some "grid is not an object", .noErr⟩)

def exportGridsGo (conn : Container) (flag_scheme : Scheme) (flag_grid_callback : String) :
    List GridRow → Dir → RResult Dir
  | [], d => .ok d
  | g :: rest, d =>
    match export_grid_row conn flag_scheme flag_grid_callback g d with
    | .ok d' => exportGridsGo conn flag_scheme flag_grid_callback rest d'
    | .err e => .err e
    | .panicked => .panicked

/-- `export` (mbtiles.rs line 374), named `runExport` because `export` is a
reserved word.  The input-is-a-file and output-directory-freshness checks
concern the host filesystem and are outside the model; metadata is written
first, then every tile row, then every grid row. -/
def runExport (conn : Container) (flag_scheme : Scheme)
    (flag_image_format : ImageFormat) (flag_grid_callback : String) : RResult Dir :=
  let d1 := dirWrite [] ["metadata.json"] (export_metadata_str conn)
  let d2 := conn.tiles.foldl
    (fun d t => dirWrite d (export_tile_path flag_scheme flag_image_format t.z t.c t.r) t.data)
    d1
  exportGridsGo conn flag_scheme flag_grid_callback conn.grids d2

end Mbutiles


namespace Mbutiles

/-! Concrete claim inputs. -/

/-- Grid-file content exercised by claim C7 (spec §8, grid key filtering). -/
def c7_content : String :=
  "cb(\x7b\"grid\":[],\"keys\":[\"\",\"k1\"],\"data\":\x7b\"k1\":42\x7d\x7d);"

/-- The filtered payload `insert_grid_json` stores for `c7_content`. -/
def c7_payload : String := "\x7b\"grid\":[],\"keys\":[\"\",\"k1\"]\x7d"

/-- A grid whose `keys` lists a key that the (present, object-valued) `data`
map does not contain. -/
def c3_missing_key : String := "\x7b\"grid\":[],\"keys\":[\"k1\"],\"data\":\x7b\x7d\x7d"

/-- A grid with a listed key but no `data` field at all. -/
def c3_no_data : String := "\x7b\"grid\":[],\"keys\":[\"k1\"]\x7d"

/-- A grid whose `keys` field is not an array. -/
def c3_keys_not_array : String := "\x7b\"grid\":[],\"keys\":5\x7d"

/-- A grid with a non-string entry in `keys` (and an empty `data` object). -/
def c3_numeric_key : String := "\x7b\"grid\":[],\"keys\":[3],\"data\":\x7b\x7d\x7d"

/-- An import tree holding one valid tile file and no `metadata.json`. -/
def c4_fs : FS := ⟨[(["1", "0", "1.png"], "T")]⟩

/-- An import tree whose `metadata.json` is a JSON array, not an object. -/
def c5_fs : FS := ⟨[(["metadata.json"], "[]")]⟩

/-- An import tree whose `metadata.json` is an object with a non-string
value. -/
def c5_fs_nonstring : FS := ⟨[(["metadata.json"], "\x7b\"a\":1\x7d")]⟩

/-- An import tree holding exactly the Wms-encoded path of tile
`(3, 1234567, 7)` (plus the `metadata.json` that `import` requires). -/
def c6_fs : FS :=
  ⟨[(["metadata.json"], "\x7b\x7d"),
    (["03", "03", "001", "234", "567", "00", "00", "007.png"], "T")]⟩

/-- Claim C1's source container: two tiles, two grids sharing the key `k1`
with different values, and the matching canonical-row `grid_data` rows. -/
def c1_p0 : String := "\x7b\"grid\":[],\"keys\":[\"k1\"]\x7d"

def c1_p1 : String := "\x7b\"grid\":[\"x\"],\"keys\":[\"k1\"]\x7d"

def c1_container : Container :=
  ⟨[⟨1, 0, 0, "T0"⟩, ⟨1, 0, 1, "T1"⟩], [],
   [⟨1, 0, 0, c1_p0⟩, ⟨1, 0, 1, c1_p1⟩],
   [⟨1, 0, 0, "k1", "1"⟩, ⟨1, 0, 1, "k1", "2"⟩]⟩

/-- First export of `c1_container` under `Xyz`. -/
def c1_D : Dir := (runExport c1_container .xyz .png "").getOk []

/-- Re-import of that export. -/
def c1_C2 : Container := (runImport ⟨c1_D⟩ .xyz .png).getOk {}

/-- Second export. -/
def c1_D2 : Dir := (runExport c1_C2 .xyz .png "").getOk []

/-- Content of `1/0/1.grid.json` after the first export. -/
def c1_s1 : String := "\x7b\"data\":\x7b\"k1\":2\x7d,\"grid\":[],\"keys\":[\"k1\"]\x7d"

/-- Content of `1/0/1.grid.json` after the second export. -/
def c1_s2 : String := "\x7b\"data\":\x7b\"k1\":1\x7d,\"grid\":[],\"keys\":[\"k1\"]\x7d"

/-! Theorems for the claims. -/

/-- Claim C1 (code bug): the export→import→export cycle does not reproduce
the grid JSON.  Both exports and the import succeed on `c1_container` under
scheme `Xyz` and format `Png` with no callback, yet the grid file
`1/0/1.grid.json` carries `k1 = 2` in the first export and `k1 = 1` in the
second: `export_grid` reuses the path-flipped row variable in its
`grid_data` query, so grid data is fetched from the mirrored row. -/
theorem roundtrip_grid_json_diverges :
    runExport c1_container .xyz .png "" = .ok c1_D ∧
    runImport ⟨c1_D⟩ .xyz .png = .ok c1_C2 ∧
    runExport c1_C2 .xyz .png "" = .ok c1_D2 ∧
    dirRead c1_D ["1", "0", "1.grid.json"] = some c1_s1 ∧
    dirRead c1_D2 ["1", "0", "1.grid.json"] = some c1_s2 ∧
    c1_s1 ≠ c1_s2 :=
  ⟨rfl, rfl, rfl, rfl, rfl, by decide⟩

/-- Claim C2: `flip_y` is an involution on every valid row of every zoom
level in `[0, 20]`. -/
theorem flip_y_involution (z y : Nat) (hz : z ≤ 20) (hy : y ≤ 2 ^ z - 1) :
    flip_y z (flip_y z y) = y := by
  have h1 : 0 < 2 ^ z := pow_pos (by norm_num) z
  unfold flip_y
  omega

/-- Claim C2, witness at `z = 3`, `y = 5`. -/
theorem flip_y_involution_witness :
    (3 : Nat) ≤ 20 ∧ (5 : Nat) ≤ 2 ^ 3 - 1 ∧ flip_y 3 (flip_y 3 5) = 5 :=
  ⟨by norm_num, by norm_num, flip_y_involution 3 5 (by norm_num) (by norm_num)⟩

/-- Claim C3, counterexample: a key listed in `keys` but absent from the
present `data` object does not make `insert_grid` return successfully — the
`BTreeMap` index panics. -/
theorem insert_grid_missing_key_panics :
    insert_grid_json c3_missing_key 0 0 0 Container.empty = .panicked := rfl

/-- Claim C3 as amended: a listed key absent from a present `data` object
panics; only when the `data` field is wholly absent or `keys` is not an
array is the anomaly logged and skipped with `Ok`, and a non-string `keys`
entry is skipped silently. -/
theorem insert_grid_key_tolerance_amended :
    insert_grid_json c3_no_data 0 0 0 Container.empty =
      .ok ⟨[], [], [⟨0, 0, 0, c3_no_data⟩], []⟩ ∧
    insert_grid_json c3_keys_not_array 0 0 0 Container.empty =
      .ok ⟨[], [], [⟨0, 0, 0, c3_keys_not_array⟩], []⟩ ∧
    insert_grid_json c3_numeric_key 0 0 0 Container.empty =
      .ok ⟨[], [], [⟨0, 0, 0, "\x7b\"grid\":[],\"keys\":[3]\x7d"⟩], []⟩ ∧
    insert_grid_json c3_missing_key 0 0 0 Container.empty = .panicked :=
  ⟨rfl, rfl, rfl, rfl⟩

/-- Claim C4 (code bug): with no `metadata.json` at the root of an otherwise
valid input directory, the metadata-restore stage does not skip silently —
`File::open` fails and the whole import aborts with an IO error (the
tolerant `was not found` branch tests `input.is_file()`, which is false for
the directory that `import` requires). -/
theorem import_missing_metadata_fails :
    runImport c4_fs .xyz .png = .err ⟨some "Can't open metadata.json", .ioErr⟩ := rfl

/-- Claim C5 (code bug): a present `metadata.json` whose top-level value is
not an object is silently accepted (nothing inserted, import proceeds to
`Ok`), instead of failing with a structural error; only a non-string value
inside an object fails the import. -/
theorem metadata_non_object_accepted :
    runImport c5_fs .xyz .png = .ok Container.empty ∧
    runImport c5_fs_nonstring .xyz .png =
      .err ⟨some "metadata object has a non string value", .noErr⟩ :=
  ⟨rfl, rfl⟩

/-- Claim C6, counterexample: importing a directory that holds exactly the
Wms-encoded path of tile `(3, 1234567, 7)` inserts no tile at all — the
walker only yields entries up to depth 3, so the depth-8 file is never
decoded. -/
theorem wms_decode_counterexample :
    runImport c6_fs .wms .png = .ok Container.empty ∧ Container.empty.tiles = [] :=
  ⟨rfl, rfl⟩

/-- Claim C6 as amended: encoding `(3, 1234567, 7)` under `Wms` produces the
nested zero-padded path, but the import side never decodes it (no tile row
results from importing that tree). -/
theorem wms_encode_amended :
    export_tile_path .wms .png 3 1234567 7 =
      ["03", "03", "001", "234", "567", "00", "00", "007.png"] ∧
    runImport c6_fs .wms .png = .ok Container.empty :=
  ⟨rfl, rfl⟩

/-- Claim C7: importing the JSONP-wrapped grid stores one `grids` row whose
payload is the object without `data` and with `keys` still listing the empty
string and `k1`, plus exactly one `grid_data` row `(k1, 42)`. -/
theorem grid_import_key_filtering :
    insert_grid_json c7_content 0 0 0 Container.empty =
      .ok ⟨[], [], [⟨0, 0, 0, c7_payload⟩], [⟨0, 0, 0, "k1", "42"⟩]⟩ ∧
    Json.from_str c7_payload =
      some (.obj (.cons "grid" (.arr .nil)
        (.cons "keys" (.arr (.cons (.str "") (.cons (.str "k1") .nil))) .nil))) :=
  ⟨rfl, rfl⟩

/-- Claim C8: the exported grid text is the raw JSON for the callbacks `""`,
`"false"`, `"null"`, and `callback(json);` for any other callback. -/
theorem dump_grid_callback_spec (cb j : String) :
    ((cb = "" ∨ cb = "false" ∨ cb = "null") → dump_grid cb j = j) ∧
    (cb ≠ "" → cb ≠ "false" → cb ≠ "null" →
      dump_grid cb j = cb ++ "(" ++ j ++ ");") := by
  constructor
  · intro h
    simp [dump_grid, h]
  · intro h1 h2 h3
    simp [dump_grid, h1, h2, h3]

/-- Claim C8, witness at `cb = ""` and `cb = "foo"`. -/
theorem dump_grid_callback_spec_witness :
    dump_grid "" "X" = "X" ∧ dump_grid "foo" "X" = "foo(X);" :=
  ⟨(dump_grid_callback_spec "" "X").1 (Or.inl rfl),
   (dump_grid_callback_spec "foo" "X").2 (by decide) (by decide) (by decide)⟩

/-- Claim C9, counterexample: encoding tile `(z = 1, col = 2, row = 3)` under
`Ags` yields the plain decimal path `1/2/3.png`, not the claimed
`L1/R3/C2.png`. -/
theorem ags_encode_counterexample :
    export_tile_path .ags .png 1 2 3 = ["1", "2", "3.png"] ∧
    (["1", "2", "3.png"] : List String) ≠ ["L1", "R3", "C2.png"] :=
  ⟨rfl, by decide⟩

/-- Claim C9 as amended: the `Ags` arm of `export_tile` falls through to the
default branch, producing `zoom/col/row.ext` in decimal with no letter
prefixes; only the decode direction handles the `L`,`R`,`C` hex layout. -/
theorem ags_encode_amended (z x y : Nat) (fmt : ImageFormat) :
    export_tile_path .ags fmt z x y =
      [Nat.repr z, Nat.repr x, Nat.repr y ++ "." ++ get_extension fmt] := rfl

/-- Claim C10, counterexample: a depth-3 file named `x` (no dot) does not
panic — `u32` parsing of the stem fails first and yields a caught,
logged-and-skipped per-entry error. -/
theorem extensionless_nonnumeric_caught :
    parse_filename_and_insert "x" .xyz .png 1 0 "T" Container.empty =
      .err ⟨some "Can't parse component in integer format", .parseIntErr⟩ := rfl

/-- Claim C10 as amended: an extensionless filename panics exactly when its
stem parses as a `u32` — the extension-mismatch branch then reads the absent
second split part. -/
theorem extensionless_numeric_panics (filename : String) (z d n : Nat)
    (content : String) (conn : Container)
    (h1 : splitDot filename = [filename]) (h2 : parse_u32 10 filename = some n) :
    parse_filename_and_insert filename .xyz .png z d content conn = .panicked := by
  simp only [parse_filename_and_insert, h1, h2, List.headD_cons]
  rfl

/-- Claim C10 as amended, witness at filename `7`. -/
theorem extensionless_numeric_panics_witness :
    splitDot "7" = ["7"] ∧ parse_u32 10 "7" = some 7 ∧
    parse_filename_and_insert "7" .xyz .png 3 0 "T" Container.empty = .panicked :=
  ⟨by decide, by decide,
   extensionless_numeric_panics "7" 3 0 7 "T" Container.empty (by decide) (by decide)⟩

end Mbutiles
